import Mathlib

/-!
Verification of the geospatial discovery-and-ranking core of the travel-guide
repository: the relevance merger (`mergeScoresWithAttractions` and
`classifyAttractions` in the OpenAI service), the expiring cache store
(`storage.service.ts`), and the location tracker (`useLocation.ts` together
with the location service).

JavaScript numbers are modelled as rationals (`ℚ`), epoch-millisecond
timestamps as integers (`ℤ`), and `JSON.stringify`/`JSON.parse` round-tripping
through the key-value backend as the identity on the stored value type.
-/

namespace Reisefuehrer

/-- Coordinates from `src/types` (`interface Coordinates`). -/
structure Coordinates where
  latitude : ℚ
  longitude : ℚ
deriving DecidableEq, Repr

/-- Attraction record from `src/types` (`interface Attraction`).
`id` is `string | number`; optional fields are `Option`. -/
structure Attraction where
  id : String ⊕ ℤ
  name : String
  latitude : ℚ
  longitude : ℚ
  type : String
  distance : ℚ
  rating : ℚ
  description : Option String
  interestScore : Option ℚ
  interestReason : Option String
  savedAt : Option String
deriving DecidableEq, Repr

/-- Score tuple from `src/types` (`interface AttractionScore`). -/
structure AttractionScore where
  name : String
  score : ℚ
  reason : String
deriving DecidableEq, Repr

/-- `OpenAIService.mergeScoresWithAttractions` (openai service, lines 97–109).

```ts
return attractions.map(attraction => {
  const scoreData = scores.find(s => s.name === attraction.name);
  return { ...attraction,
           interestScore: scoreData?.score || 5,
           interestReason: scoreData?.reason || '' };
});
```

The JS `x || d` fallback returns `d` whenever `x` is falsy: for a number that
includes `0`, for a string it includes `''`; an absent `scoreData` makes
`scoreData?.score` and `scoreData?.reason` `undefined`, which is falsy. -/
def mergeScoresWithAttractions (attractions : List Attraction)
    (scores : List AttractionScore) : List Attraction :=
  attractions.map fun attraction =>
    match scores.find? (fun s => s.name == attraction.name) with
    | some scoreData =>
        { attraction with
          interestScore := some (if scoreData.score = 0 then 5 else scoreData.score),
          interestReason := some (if scoreData.reason = "" then "" else scoreData.reason) }
    | none =>
        { attraction with interestScore := some 5, interestReason := some "" }

/-- `OpenAIService.isValidApiKey` (openai service, lines 68–71):
`if (!key.startsWith('sk')) return false; return true;` — i.e. the key is
valid exactly when its first two characters are `s`, `k`. The JS
`startsWith('sk')` is expressed over the character list so the kernel can
evaluate it. -/
def isValidApiKey (key : String) : Bool :=
  key.data.take 2 == ("sk").data

/-- Outcome of the single `axios` POST inside `classifyAttractions`.
`success parsed` means the HTTP call returned a response whose message content
JSON-parses (after markdown stripping) to `parsed = some scores`, or fails to
parse (`parsed = none`); `failure` means `axios` (or reading
`response.data.choices[0].message.content`) threw, landing in the outer
`catch`. -/
inductive ClassificationCall where
  | success (parsed : Option (List AttractionScore))
  | failure
deriving DecidableEq, Repr

/-- `OpenAIService.parseScoresFromResponse` (openai service, lines 76–92):
strips markdown fences and `JSON.parse`s the content, returning `[]` when the
parse throws. The JSON parse outcome is the `parsed` argument. -/
def parseScoresFromResponse (parsed : Option (List AttractionScore)) :
    List AttractionScore :=
  match parsed with
  | some scores => scores
  | none => []

/-- `OpenAIService.classifyAttractions` (openai service, lines 14–62).

```ts
if (!userInterests.length || !this.isValidApiKey(OPENAI_API_KEY)) {
  return attractions;
}
try {
  ... await axios(...) ...
  const scores = this.parseScoresFromResponse(content);
  return this.mergeScoresWithAttractions(attractions, scores);
} catch (error) {
  return attractions;
}
```

The network interaction is abstracted by the `call` argument. -/
def classifyAttractions (attractions : List Attraction)
    (userInterests : List String) (apiKey : String)
    (call : ClassificationCall) : List Attraction :=
  if userInterests.isEmpty || !(isValidApiKey apiKey) then
    attractions
  else
    match call with
    | .failure => attractions
    | .success parsed =>
        mergeScoresWithAttractions attractions (parseScoresFromResponse parsed)

/-- Length is preserved by the merge (it is a `List.map`). Shared helper. -/
theorem mergeScoresWithAttractions_length (attractions : List Attraction)
    (scores : List AttractionScore) :
    (mergeScoresWithAttractions attractions scores).length = attractions.length := by
  simp [mergeScoresWithAttractions]

/-- A sample attraction used by concrete witnesses. -/
def attrA : Attraction :=
  { id := Sum.inl ("1"), name := "A", latitude := 52, longitude := 13,
    type := "museum", distance := 100, rating := 4, description := none,
    interestScore := none, interestReason := none, savedAt := none }

/-- A score entry for `"A"` with score 0 and reason `"x"`. -/
def scoreA0 : AttractionScore := { name := "A", score := 0, reason := "x" }

/-- C1 counterexample: merging `[{name:"A"}]` with `[{name:"A", score:0, reason:"x"}]`
produces `interestScore = 5`, not `0` as the claim states — the `|| 5` fallback
treats the matched score `0` as falsy. The matched reason `"x"` is kept. -/
theorem mergeScores_zero_score_cex :
    (mergeScoresWithAttractions [attrA] [scoreA0]).map (fun a => a.interestScore)
      = [some 5] ∧
    (mergeScoresWithAttractions [attrA] [scoreA0]).map (fun a => a.interestScore)
      ≠ [some 0] ∧
    (mergeScoresWithAttractions [attrA] [scoreA0]).map (fun a => a.interestReason)
      = [some ("x")] := by
  refine ⟨by decide, by decide, by decide⟩

/-- C1 (amended): for every attraction of the input list, if its name has an
exact case-sensitive match in the scores list then the merge sets
`interestScore` to the matched score when that score is nonzero and to the
neutral default `5` when the matched score is `0` (the JS `|| 5` fallback),
and sets `interestReason` to the matched reason; with no match it sets
`interestScore = 5` and `interestReason = ''`. -/
theorem mergeScores_match_semantics (attractions : List Attraction)
    (scores : List AttractionScore) (i : ℕ) (h : i < attractions.length) :
    (∀ sd, scores.find? (fun s => s.name == (attractions.get ⟨i, h⟩).name) = some sd →
      ((mergeScoresWithAttractions attractions scores).get
          ⟨i, (mergeScoresWithAttractions_length attractions scores).symm ▸ h⟩).interestScore
        = some (if sd.score = 0 then 5 else sd.score) ∧
      ((mergeScoresWithAttractions attractions scores).get
          ⟨i, (mergeScoresWithAttractions_length attractions scores).symm ▸ h⟩).interestReason
        = some sd.reason) ∧
    (scores.find? (fun s => s.name == (attractions.get ⟨i, h⟩).name) = none →
      ((mergeScoresWithAttractions attractions scores).get
          ⟨i, (mergeScoresWithAttractions_length attractions scores).symm ▸ h⟩).interestScore
        = some 5 ∧
      ((mergeScoresWithAttractions attractions scores).get
          ⟨i, (mergeScoresWithAttractions_length attractions scores).symm ▸ h⟩).interestReason
        = some ("")) := by
  constructor
  · intro sd hfind
    simp only [List.get_eq_getElem] at hfind
    by_cases hr : sd.reason = "" <;>
      simp [mergeScoresWithAttractions, List.get_eq_getElem, List.getElem_map, hfind, hr]
  · intro hfind
    simp only [List.get_eq_getElem] at hfind
    simp [mergeScoresWithAttractions, List.get_eq_getElem, List.getElem_map, hfind]

/-- Witness for C1 (amended) at a concrete input: one attraction named `"A"`,
one matching score entry with score `0` and reason `"x"`. -/
theorem mergeScores_match_semantics_witness :
    ((mergeScoresWithAttractions [attrA] [scoreA0]).get
        ⟨0, (mergeScoresWithAttractions_length [attrA] [scoreA0]).symm ▸
          Nat.zero_lt_one⟩).interestScore
      = some (if scoreA0.score = 0 then 5 else scoreA0.score) ∧
    ((mergeScoresWithAttractions [attrA] [scoreA0]).get
        ⟨0, (mergeScoresWithAttractions_length [attrA] [scoreA0]).symm ▸
          Nat.zero_lt_one⟩).interestReason
      = some scoreA0.reason :=
  (mergeScores_match_semantics [attrA] [scoreA0] 0 Nat.zero_lt_one).1 scoreA0 (by decide)

/-- C6: the merge output has exactly the length of the input attractions list,
and the element at each input position `i` is the input attraction at `i` with
every field other than `interestScore` and `interestReason` unchanged — so the
output is in input order and every input attraction appears exactly once (at
its own index). -/
theorem mergeScores_preserves_shape (attractions : List Attraction)
    (scores : List AttractionScore) (i : ℕ) (h : i < attractions.length) :
    (mergeScoresWithAttractions attractions scores).length = attractions.length ∧
    (((mergeScoresWithAttractions attractions scores).get
        ⟨i, (mergeScoresWithAttractions_length attractions scores).symm ▸ h⟩).id
      = (attractions.get ⟨i, h⟩).id ∧
    ((mergeScoresWithAttractions attractions scores).get
        ⟨i, (mergeScoresWithAttractions_length attractions scores).symm ▸ h⟩).name
      = (attractions.get ⟨i, h⟩).name ∧
    ((mergeScoresWithAttractions attractions scores).get
        ⟨i, (mergeScoresWithAttractions_length attractions scores).symm ▸ h⟩).latitude
      = (attractions.get ⟨i, h⟩).latitude ∧
    ((mergeScoresWithAttractions attractions scores).get
        ⟨i, (mergeScoresWithAttractions_length attractions scores).symm ▸ h⟩).longitude
      = (attractions.get ⟨i, h⟩).longitude ∧
    ((mergeScoresWithAttractions attractions scores).get
        ⟨i, (mergeScoresWithAttractions_length attractions scores).symm ▸ h⟩).type
      = (attractions.get ⟨i, h⟩).type ∧
    ((mergeScoresWithAttractions attractions scores).get
        ⟨i, (mergeScoresWithAttractions_length attractions scores).symm ▸ h⟩).distance
      = (attractions.get ⟨i, h⟩).distance ∧
    ((mergeScoresWithAttractions attractions scores).get
        ⟨i, (mergeScoresWithAttractions_length attractions scores).symm ▸ h⟩).rating
      = (attractions.get ⟨i, h⟩).rating ∧
    ((mergeScoresWithAttractions attractions scores).get
        ⟨i, (mergeScoresWithAttractions_length attractions scores).symm ▸ h⟩).description
      = (attractions.get ⟨i, h⟩).description ∧
    ((mergeScoresWithAttractions attractions scores).get
        ⟨i, (mergeScoresWithAttractions_length attractions scores).symm ▸ h⟩).savedAt
      = (attractions.get ⟨i, h⟩).savedAt) := by
  refine ⟨mergeScoresWithAttractions_length attractions scores, ?_⟩
  simp only [mergeScoresWithAttractions, List.get_eq_getElem, List.getElem_map]
  cases hfind : List.find? (fun s => s.name == attractions[i].name) scores <;>
    simp [hfind]

/-- Witness for C6 at a concrete input. -/
theorem mergeScores_preserves_shape_witness :
    (mergeScoresWithAttractions [attrA] [scoreA0]).length = [attrA].length ∧
    (((mergeScoresWithAttractions [attrA] [scoreA0]).get
        ⟨0, (mergeScoresWithAttractions_length [attrA] [scoreA0]).symm ▸
          Nat.zero_lt_one⟩).id
      = ([attrA].get ⟨0, Nat.zero_lt_one⟩).id ∧
    ((mergeScoresWithAttractions [attrA] [scoreA0]).get
        ⟨0, (mergeScoresWithAttractions_length [attrA] [scoreA0]).symm ▸
          Nat.zero_lt_one⟩).name
      = ([attrA].get ⟨0, Nat.zero_lt_one⟩).name ∧
    ((mergeScoresWithAttractions [attrA] [scoreA0]).get
        ⟨0, (mergeScoresWithAttractions_length [attrA] [scoreA0]).symm ▸
          Nat.zero_lt_one⟩).latitude
      = ([attrA].get ⟨0, Nat.zero_lt_one⟩).latitude ∧
    ((mergeScoresWithAttractions [attrA] [scoreA0]).get
        ⟨0, (mergeScoresWithAttractions_length [attrA] [scoreA0]).symm ▸
          Nat.zero_lt_one⟩).longitude
      = ([attrA].get ⟨0, Nat.zero_lt_one⟩).longitude ∧
    ((mergeScoresWithAttractions [attrA] [scoreA0]).get
        ⟨0, (mergeScoresWithAttractions_length [attrA] [scoreA0]).symm ▸
          Nat.zero_lt_one⟩).type
      = ([attrA].get ⟨0, Nat.zero_lt_one⟩).type ∧
    ((mergeScoresWithAttractions [attrA] [scoreA0]).get
        ⟨0, (mergeScoresWithAttractions_length [attrA] [scoreA0]).symm ▸
          Nat.zero_lt_one⟩).distance
      = ([attrA].get ⟨0, Nat.zero_lt_one⟩).distance ∧
    ((mergeScoresWithAttractions [attrA] [scoreA0]).get
        ⟨0, (mergeScoresWithAttractions_length [attrA] [scoreA0]).symm ▸
          Nat.zero_lt_one⟩).rating
      = ([attrA].get ⟨0, Nat.zero_lt_one⟩).rating ∧
    ((mergeScoresWithAttractions [attrA] [scoreA0]).get
        ⟨0, (mergeScoresWithAttractions_length [attrA] [scoreA0]).symm ▸
          Nat.zero_lt_one⟩).description
      = ([attrA].get ⟨0, Nat.zero_lt_one⟩).description ∧
    ((mergeScoresWithAttractions [attrA] [scoreA0]).get
        ⟨0, (mergeScoresWithAttractions_length [attrA] [scoreA0]).symm ▸
          Nat.zero_lt_one⟩).savedAt
      = ([attrA].get ⟨0, Nat.zero_lt_one⟩).savedAt) :=
  mergeScores_preserves_shape [attrA] [scoreA0] 0 Nat.zero_lt_one

/-- C7 counterexample: with nonempty interests, a valid key, a successful HTTP
call whose content fails to JSON-parse, `classifyAttractions` does NOT return
the input list unchanged — `parseScoresFromResponse` yields `[]` and the merge
still runs, stamping the default `interestScore = 5`, `interestReason = ''`
onto every attraction. -/
theorem classifyAttractions_parse_failure_cex :
    classifyAttractions [attrA] [("history")] ("sk-test") (.success none) ≠ [attrA] ∧
    classifyAttractions [attrA] [("history")] ("sk-test") (.success none)
      = [{ attrA with interestScore := some 5, interestReason := some ("") }] := by
  refine ⟨by decide, by decide⟩

/-- C7 (amended): the classification step is a safe pass-through on skip or
call failure: with empty interests or without a valid API key it returns the
input unchanged (and performs no call); when the external call throws it also
returns the input unchanged; but when the call succeeds and only the response
parsing fails, it returns `mergeScoresWithAttractions attractions []` — every
attraction with the neutral defaults `interestScore = 5`, `interestReason = ''`
— rather than raising an error. -/
theorem classifyAttractions_fallback (attractions : List Attraction)
    (userInterests : List String) (apiKey : String) (call : ClassificationCall) :
    (userInterests = [] → classifyAttractions attractions userInterests apiKey call
      = attractions) ∧
    (isValidApiKey apiKey = false →
      classifyAttractions attractions userInterests apiKey call = attractions) ∧
    (classifyAttractions attractions userInterests apiKey .failure = attractions) ∧
    (userInterests ≠ [] → isValidApiKey apiKey = true →
      classifyAttractions attractions userInterests apiKey (.success none)
        = mergeScoresWithAttractions attractions []) := by
  refine ⟨?_, ?_, ?_, ?_⟩
  · intro hempty
    simp [classifyAttractions, hempty]
  · intro hkey
    simp [classifyAttractions, hkey]
  · by_cases hempty : userInterests.isEmpty <;>
      by_cases hkey : isValidApiKey apiKey <;>
        simp [classifyAttractions, hempty, hkey]
  · intro hne hkey
    have hempty : userInterests.isEmpty = false := by
      simpa [List.isEmpty_iff] using hne
    simp [classifyAttractions, hempty, hkey, parseScoresFromResponse]

/-- Witness for C7 (amended) at concrete inputs: the skip cases return the
input unchanged, the call-failure case returns the input unchanged, and the
parse-failure case returns the default-merged list. -/
theorem classifyAttractions_fallback_witness :
    (classifyAttractions [attrA] [] ("sk-test") .failure = [attrA]) ∧
    (classifyAttractions [attrA] [("history")] ("bad") .failure = [attrA]) ∧
    (classifyAttractions [attrA] [("history")] ("sk-test") .failure = [attrA]) ∧
    (classifyAttractions [attrA] [("history")] ("sk-test") (.success none)
      = mergeScoresWithAttractions [attrA] []) :=
  ⟨(classifyAttractions_fallback [attrA] [] ("sk-test") .failure).1 rfl,
   (classifyAttractions_fallback [attrA] [("history")] ("bad") .failure).2.1 (by decide),
   (classifyAttractions_fallback [attrA] [("history")] ("sk-test") .failure).2.2.1,
   (classifyAttractions_fallback [attrA] [("history")] ("sk-test")
      (.success none)).2.2.2 (by decide) (by decide)⟩

/-! ## Expiring cache store (`src/src/services/storage.service.ts`)

`AsyncStorage` is modelled as a key-indexed store of already-parsed values
(`JSON.stringify`/`JSON.parse` round-trip through it as the identity), each
primitive operation of which may throw; the `fail*` fields say which
operations throw on which keys. The `StorageService` methods wrap every
backend call in `try/catch` exactly as the source does. -/

/-- Cache envelope from `src/types` (`interface CacheEntry<T>`). -/
structure CacheEntry (T : Type) where
  data : T
  timestamp : ℤ
  expiresIn : ℤ
deriving DecidableEq, Repr

/-- The `AsyncStorage` backend seen by one service call sequence. -/
structure Backend (V : Type) where
  store : String → Option V
  failGet : String → Bool
  failSet : String → Bool
  failRemove : String → Bool
  failClear : Bool

/-- `AsyncStorage.getItem`: throws iff `failGet key`. -/
def Backend.getItem (b : Backend V) (key : String) : Except String (Option V) :=
  if b.failGet key then Except.error ("storage failure") else Except.ok (b.store key)

/-- `AsyncStorage.setItem`: throws iff `failSet key`, otherwise overwrites. -/
def Backend.setItem (b : Backend V) (key : String) (value : V) :
    Except String (Backend V) :=
  if b.failSet key then Except.error ("storage failure")
  else Except.ok { b with store := fun k => if k = key then some value else b.store k }

/-- `AsyncStorage.removeItem`: throws iff `failRemove key`, otherwise deletes. -/
def Backend.removeItem (b : Backend V) (key : String) : Except String (Backend V) :=
  if b.failRemove key then Except.error ("storage failure")
  else Except.ok { b with store := fun k => if k = key then none else b.store k }

/-- `AsyncStorage.clear`: throws iff `failClear`, otherwise empties the store. -/
def Backend.clearAll (b : Backend V) : Except String (Backend V) :=
  if b.failClear then Except.error ("storage failure")
  else Except.ok { b with store := fun _ => none }

namespace StorageService

/-- `StorageService.get` (storage service, lines 12–20):
`try { const jsonValue = await AsyncStorage.getItem(key);
       return jsonValue != null ? JSON.parse(jsonValue) : null; }
 catch { return null; }`. -/
def get (b : Backend V) (key : String) : Option V :=
  match b.getItem key with
  | Except.ok jsonValue => jsonValue
  | Except.error _ => none

/-- `StorageService.set` (storage service, lines 25–33): returns the updated
backend and `true` on success; on a thrown backend error the backend is
unchanged and the result is `false`. -/
def set (b : Backend V) (key : String) (value : V) : Backend V × Bool :=
  match b.setItem key value with
  | Except.ok b2 => (b2, true)
  | Except.error _ => (b, false)

/-- `StorageService.remove` (storage service, lines 38–46). -/
def remove (b : Backend V) (key : String) : Backend V × Bool :=
  match b.removeItem key with
  | Except.ok b2 => (b2, true)
  | Except.error _ => (b, false)

/-- `StorageService.getCached` (storage service, lines 51–67):

```ts
const cached = await this.get<CacheEntry<T>>(key);
if (!cached) return null;
const now = Date.now();
if (now - cached.timestamp > cached.expiresIn) {
  await this.remove(key);
  return null;
}
return cached.data;
```

`now` (the value of `Date.now()`) is passed explicitly. The surrounding
`try/catch` is unreachable because `get` and `remove` already catch. -/
def getCached (now : ℤ) (b : Backend (CacheEntry T)) (key : String) :
    Backend (CacheEntry T) × Option T :=
  match get b key with
  | none => (b, none)
  | some cached =>
    if now - cached.timestamp > cached.expiresIn then
      ((remove b key).1, none)
    else (b, some cached.data)

/-- `StorageService.setCached` (storage service, lines 72–79): wraps `data`
with the current timestamp and `expiresIn` and writes via `set`. -/
def setCached (now : ℤ) (b : Backend (CacheEntry T)) (key : String) (data : T)
    (expiresIn : ℤ) : Backend (CacheEntry T) × Bool :=
  set b key { data := data, timestamp := now, expiresIn := expiresIn }

/-- `StorageService.clear` (storage service, lines 84–92). -/
def clear (b : Backend V) : Backend V × Bool :=
  match b.clearAll with
  | Except.ok b2 => (b2, true)
  | Except.error _ => (b, false)

end StorageService

/-- A concrete non-failing backend holding `⟨7, 0, 1000⟩` at key `"k"`. -/
def backendFresh : Backend (CacheEntry ℕ) :=
  { store := fun k => if k = "k" then some { data := 7, timestamp := 0, expiresIn := 1000 }
      else none,
    failGet := fun _ => false, failSet := fun _ => false,
    failRemove := fun _ => false, failClear := false }

/-- A concrete backend whose every primitive operation throws. -/
def backendBroken : Backend (CacheEntry ℕ) :=
  { store := fun k => if k = "k" then some { data := 7, timestamp := 0, expiresIn := 1000 }
      else none,
    failGet := fun _ => true, failSet := fun _ => true,
    failRemove := fun _ => true, failClear := true }

/-- C3: for an entry `⟨v, ts, ttl⟩` stored at `key` (with the underlying reads
and deletes not failing), `getCached` evicts the key and returns absent exactly
when `now - ts > ttl`, and otherwise returns the stored data with the backend
untouched. With `ttl = 1000` this gives: a read at `ts + 1001` returns absent
and removes the key; a read at `ts + 999` returns the stored value. -/
theorem getCached_expiry (v : T) (b : Backend (CacheEntry T)) (key : String)
    (ts ttl now : ℤ)
    (hstore : b.store key = some { data := v, timestamp := ts, expiresIn := ttl })
    (hget : b.failGet key = false) (hrem : b.failRemove key = false) :
    (now - ts > ttl →
      (StorageService.getCached now b key).2 = none ∧
      (StorageService.getCached now b key).1.store key = none) ∧
    (now - ts ≤ ttl →
      (StorageService.getCached now b key).2 = some v ∧
      (StorageService.getCached now b key).1 = b) := by
  constructor
  · intro hexp
    have : ¬ (now - ts ≤ ttl) := not_le.mpr hexp
    simp [StorageService.getCached, StorageService.get, StorageService.remove,
      Backend.getItem, Backend.removeItem, hget, hrem, hstore, hexp, this]
  · intro hfresh
    have : ¬ (now - ts > ttl) := not_lt.mpr hfresh
    simp [StorageService.getCached, StorageService.get, Backend.getItem,
      hget, hstore, this]

/-- Witness for C3 on `backendFresh` (`ts = 0`, `ttl = 1000`) at the two reads
named by the claim, `now = 1001` and `now = 999`. -/
theorem getCached_expiry_witness :
    ((StorageService.getCached 1001 backendFresh ("k")).2 = none ∧
     (StorageService.getCached 1001 backendFresh ("k")).1.store ("k") = none) ∧
    ((StorageService.getCached 999 backendFresh ("k")).2 = some 7 ∧
     (StorageService.getCached 999 backendFresh ("k")).1 = backendFresh) :=
  ⟨(getCached_expiry 7 backendFresh ("k") 0 1000 1001 rfl rfl rfl).1 (by decide),
   (getCached_expiry 7 backendFresh ("k") 0 1000 999 rfl rfl rfl).2 (by decide)⟩

/-- C10: the expiry comparison `now - cached.timestamp > cached.expiresIn` is
strict, so a read performed when `now - ts` equals `ttl` exactly still returns
the stored data and does not evict — the backend is returned unchanged. -/
theorem getCached_boundary (v : T) (b : Backend (CacheEntry T)) (key : String)
    (ts ttl now : ℤ)
    (hstore : b.store key = some { data := v, timestamp := ts, expiresIn := ttl })
    (hget : b.failGet key = false) (hnow : now - ts = ttl) :
    (StorageService.getCached now b key).2 = some v ∧
    (StorageService.getCached now b key).1 = b ∧
    (StorageService.getCached now b key).1.store key
      = some { data := v, timestamp := ts, expiresIn := ttl } := by
  have hle : ¬ (now - ts > ttl) := by omega
  refine ⟨?_, ?_, ?_⟩ <;>
    simp [StorageService.getCached, StorageService.get, Backend.getItem,
      hget, hstore, hle]

/-- Witness for C10 on `backendFresh` (`ts = 0`, `ttl = 1000`) read exactly at
`now = 1000`. -/
theorem getCached_boundary_witness :
    (StorageService.getCached 1000 backendFresh ("k")).2 = some 7 ∧
    (StorageService.getCached 1000 backendFresh ("k")).1 = backendFresh ∧
    (StorageService.getCached 1000 backendFresh ("k")).1.store ("k")
      = some { data := 7, timestamp := 0, expiresIn := 1000 } :=
  getCached_boundary 7 backendFresh ("k") 0 1000 1000 rfl rfl (by decide)

/-- C8: `setCached(k, v, ttl)` followed by `getCached(k)` before `ttl` has
elapsed (with no intervening write and the underlying write/read not failing)
returns exactly the stored value `v`. -/
theorem setCached_getCached_roundtrip (v : T) (b : Backend (CacheEntry T))
    (key : String) (ttl now now2 : ℤ)
    (hset : b.failSet key = false) (hget : b.failGet key = false)
    (hpos : 0 < ttl) (horder : now ≤ now2) (hfresh : now2 - now < ttl) :
    (StorageService.getCached now2
        (StorageService.setCached now b key v ttl).1 key).2 = some v := by
  have hexp : ¬ (now2 - now > ttl) := by omega
  simp [StorageService.getCached, StorageService.setCached, StorageService.set,
    StorageService.get, Backend.getItem, Backend.setItem, hset, hget, hexp]

/-- Witness for C8: write value `42` at time `5` with `ttl = 1000` into the
(non-failing) fresh backend, read it back at time `900`. -/
theorem setCached_getCached_roundtrip_witness :
    (0:ℤ) < 1000 ∧ (5:ℤ) ≤ 900 ∧ (900:ℤ) - 5 < 1000 ∧
    (StorageService.getCached 900
        (StorageService.setCached 5 backendFresh ("j") 42 1000).1 ("j")).2 = some 42 :=
  ⟨by decide, by decide, by decide,
   setCached_getCached_roundtrip 42 backendFresh ("j") 1000 5 900 rfl rfl
     (by decide) (by decide) (by decide)⟩

/-- C5: when the underlying `AsyncStorage` operations throw, every
`StorageService` operation absorbs the failure instead of propagating it (all
the modelled operations are total functions): `get` and `getCached` return
absent with the backend untouched — indistinguishable from a miss — and
`set`/`setCached`/`remove`/`clear` return `false`, also leaving the backend
untouched. -/
theorem storage_absorbs_failures (b : Backend (CacheEntry T)) (key : String)
    (v : CacheEntry T) (d : T) (ttl now : ℤ)
    (hget : b.failGet key = true) (hset : b.failSet key = true)
    (hrem : b.failRemove key = true) (hclear : b.failClear = true) :
    StorageService.get b key = none ∧
    (StorageService.getCached now b key).2 = none ∧
    (StorageService.getCached now b key).1 = b ∧
    StorageService.set b key v = (b, false) ∧
    StorageService.setCached now b key d ttl = (b, false) ∧
    StorageService.remove b key = (b, false) ∧
    StorageService.clear b = (b, false) := by
  refine ⟨?_, ?_, ?_, ?_, ?_, ?_, ?_⟩ <;>
    simp [StorageService.get, StorageService.getCached, StorageService.set,
      StorageService.setCached, StorageService.remove, StorageService.clear,
      Backend.getItem, Backend.setItem, Backend.removeItem, Backend.clearAll,
      hget, hset, hrem, hclear]

/-- Witness for C5 on the all-failing concrete backend `backendBroken`. -/
theorem storage_absorbs_failures_witness :
    StorageService.get backendBroken ("k") = none ∧
    (StorageService.getCached 0 backendBroken ("k")).2 = none ∧
    (StorageService.getCached 0 backendBroken ("k")).1 = backendBroken ∧
    StorageService.set backendBroken ("k") { data := 9, timestamp := 0, expiresIn := 1 }
      = (backendBroken, false) ∧
    StorageService.setCached 0 backendBroken ("k") 9 1 = (backendBroken, false) ∧
    StorageService.remove backendBroken ("k") = (backendBroken, false) ∧
    StorageService.clear backendBroken = (backendBroken, false) :=
  storage_absorbs_failures backendBroken ("k")
    { data := 9, timestamp := 0, expiresIn := 1 } 9 1 0 rfl rfl rfl rfl

/-! ## Location tracker (`src/src/hooks/useLocation.ts` and the location
service) -/

/-- City metadata from `src/types` (`interface CityInfo`). -/
structure CityInfo where
  city : String
  country : String
  state : Option String
  fullAddress : String
  latitude : ℚ
  longitude : ℚ
deriving DecidableEq, Repr

/-- What the platform location provider does on this call: grants permission
and produces a fix, denies permission, or fails to produce a fix. -/
inductive ProviderOutcome where
  | granted (position : Coordinates)
  | denied
  | unavailable
deriving DecidableEq, Repr

/-- `true` on the two failure outcomes (`PermissionDenied`, provider error). -/
def ProviderOutcome.isFailure : ProviderOutcome → Bool
  | .granted _ => false
  | .denied => true
  | .unavailable => true

/-- `LocationService.getCurrentLocation` (location service, lines 212–225):
the permission check throws `'Location permission denied'` and
`getCurrentPositionAsync` may throw, but the surrounding `try/catch` logs and
returns `null` in both cases, so the caller only ever sees the coordinates or
`null`. -/
def getCurrentLocation : ProviderOutcome → Option Coordinates
  | .granted p => some p
  | .denied => none
  | .unavailable => none

/-- The state held by the `useLocation` hook. -/
structure LocationHookState where
  location : Option Coordinates
  cityInfo : Option CityInfo
  loading : Bool
  error : Option String
deriving DecidableEq, Repr

/-- `loadLocation` of `useLocation` (useLocation.ts, lines 24–45): sets
`loading = true`, clears `error`, asks `getCurrentLocation`; on a non-null
result stores the coordinates and the (best-effort) reverse-geocode result;
the `catch` that would set `error` is unreachable because
`getCurrentLocation` never throws; `finally` clears `loading`. The
reverse-geocoder is the `geocode` argument (it returns `none` on its own
absorbed failures). -/
def loadLocation (s : LocationHookState) (o : ProviderOutcome)
    (geocode : Coordinates → Option CityInfo) : LocationHookState :=
  let s1 := { s with loading := true, error := none }
  match getCurrentLocation o with
  | some coords =>
      { s1 with location := some coords, cityInfo := geocode coords, loading := false }
  | none => { s1 with loading := false }

/-- The initial hook state (useLocation.ts, lines 19–22). -/
def initialHookState : LocationHookState :=
  { location := none, cityInfo := none, loading := true, error := none }

/-- A concrete previously-resolved state used by counterexample and witness. -/
def resolvedState : LocationHookState :=
  { location := some { latitude := 52, longitude := 13 }, cityInfo := none,
    loading := false, error := none }

/-- C4 counterexample: starting from a state that already holds last-known
coordinates, a permission denial leaves `error = none` — the failure is NOT
reported as an error state visible to the caller (the service swallowed it),
contradicting the claim; the same holds for a provider error. -/
theorem loadLocation_silent_failure_cex :
    (loadLocation resolvedState .denied (fun _ => none)).error = none ∧
    (loadLocation resolvedState .unavailable (fun _ => none)).error = none := by
  refine ⟨rfl, rfl⟩

/-- C4 (amended): a permission denial or provider error during `loadLocation`
is absorbed inside `getCurrentLocation` (logged and converted to `null`), so
`loadLocation` completes without raising, previously held last-known
coordinates and city info remain unchanged and usable, loading ends — but no
error state is set (`error` is reset to `none`): the failure is a silent
absence rather than a reported error state. -/
theorem loadLocation_failure_semantics (s : LocationHookState)
    (o : ProviderOutcome) (geocode : Coordinates → Option CityInfo)
    (hfail : o.isFailure = true) :
    (loadLocation s o geocode).location = s.location ∧
    (loadLocation s o geocode).cityInfo = s.cityInfo ∧
    (loadLocation s o geocode).loading = false ∧
    (loadLocation s o geocode).error = none := by
  cases o with
  | granted p => simp [ProviderOutcome.isFailure] at hfail
  | denied => exact ⟨rfl, rfl, rfl, rfl⟩
  | unavailable => exact ⟨rfl, rfl, rfl, rfl⟩

/-- Witness for C4 (amended) at the concrete resolved state and a denial. -/
theorem loadLocation_failure_semantics_witness :
    (loadLocation resolvedState .denied (fun _ => none)).location
      = resolvedState.location ∧
    (loadLocation resolvedState .denied (fun _ => none)).cityInfo
      = resolvedState.cityInfo ∧
    (loadLocation resolvedState .denied (fun _ => none)).loading = false ∧
    (loadLocation resolvedState .denied (fun _ => none)).error = none :=
  loadLocation_failure_semantics resolvedState .denied (fun _ => none) rfl

/-- Modelled from the spec: the repository's `src/utils/distance.ts`
(`calculateDistance` / `hasSignificantMovement`) is not among the provided
sources, only its caller `useLocation.ts` is. Following spec §4.1, the
distance is a planar approximation; we work with the squared distance in
square meters (one degree ≈ 111320 m) so the check stays exact over `ℚ`. -/
def distanceMetersSq (a b : Coordinates) : ℚ :=
  (111320 * (a.latitude - b.latitude))^2 + (111320 * (a.longitude - b.longitude))^2

/-- Modelled from the spec: the movement threshold, "a fixed configuration
constant, e.g. on the order of hundreds of meters" (spec §4.1); the provider
options in the location service use a 500 m distance interval. In meters. -/
def MOVEMENT_THRESHOLD : ℚ := 500

/-- Modelled from the spec (§4.1): `hasSignificantMovement(previous, next)`
returns `true` unconditionally when `previous` is null, and otherwise true iff
the distance reaches `MOVEMENT_THRESHOLD` (compared via squared distances,
which is equivalent for nonnegative quantities). -/
def hasSignificantMovement (previous : Option Coordinates) (next : Coordinates) :
    Bool :=
  match previous with
  | none => true
  | some p => MOVEMENT_THRESHOLD * MOVEMENT_THRESHOLD ≤ distanceMetersSq p next

/-- The tracking callback installed by the `useEffect` of `useLocation`
(useLocation.ts, lines 54–65): `baseline` is the value of the `location` state
variable captured by the callback's closure when the effect ran — the effect's
dependency array is `[enableTracking, loadLocation]` and `loadLocation` is a
stable `useCallback`, so the effect runs once and the closure is never
refreshed; `setLocation` updates the state but not the captured `baseline`. -/
def trackingCallback (baseline : Option Coordinates) (current : Option Coordinates)
    (newCoords : Coordinates) : Option Coordinates :=
  if hasSignificantMovement baseline newCoords then some newCoords else current

/-- Delivering a sequence of position updates to the subscription created with
closure baseline `baseline`, starting from hook state `loc0`: exactly what the
code does (every update is checked against the fixed `baseline`). -/
def runTracking (baseline : Option Coordinates) (loc0 : Option Coordinates)
    (updates : List Coordinates) : Option Coordinates :=
  updates.foldl (trackingCallback baseline) loc0

/-- The behavior the claim (and spec §4.3) demands, stated from the spec's
words for comparison: each update is checked against the latest accepted
coordinates, which become the new baseline once accepted. -/
def runTrackingSpec (loc0 : Option Coordinates) (updates : List Coordinates) :
    Option Coordinates :=
  updates.foldl
    (fun current u => if hasSignificantMovement current u then some u else current)
    loc0

/-- First update delivered while tracking: a genuine fix. -/
def fix1 : Coordinates := { latitude := 52, longitude := 13 }

/-- Second update: about 111 m east of `fix1`, far below the 500 m threshold. -/
def fix2 : Coordinates := { latitude := 52, longitude := 13001/1000 }

/-- C2 (code bug): the subscription starts while `location` is still `null`
(the effect runs before the asynchronous `loadLocation` resolves), so the
closure baseline is `none`. Delivering `fix1` then the tiny movement `fix2`,
the code accepts `fix2` (it is compared against the stale `none` baseline,
which makes every update significant), even though relative to the accepted
`fix1` it is insignificant; evaluating against the latest accepted value, as
the claim requires, would have kept `fix1`. -/
theorem tracking_stale_baseline_bug :
    runTracking none none [fix1, fix2] = some fix2 ∧
    hasSignificantMovement (some fix1) fix2 = false ∧
    runTrackingSpec none [fix1, fix2] = some fix1 ∧
    fix2 ≠ fix1 := by
  refine ⟨?_, ?_, ?_, ?_⟩
  · simp [runTracking, trackingCallback, hasSignificantMovement]
  · norm_num [hasSignificantMovement, distanceMetersSq, MOVEMENT_THRESHOLD,
      fix1, fix2]
  · norm_num [runTrackingSpec, List.foldl, hasSignificantMovement,
      distanceMetersSq, MOVEMENT_THRESHOLD, fix1, fix2]
  · simp only [fix1, fix2, ne_eq, Coordinates.mk.injEq, not_and]
    intro _
    norm_num

/-- A position-update subscription handle (`Location.LocationSubscription`). -/
structure LocationSubscription where
  id : ℕ
deriving DecidableEq, Repr

/-- `subscription.remove()`: deregisters the handle from the platform's set of
active subscriptions; removing an already-removed handle changes nothing. -/
def removeSubscription (active : List ℕ) (h : LocationSubscription) : List ℕ :=
  active.filter (fun i => i != h.id)

/-- The effect cleanup of `useLocation` (useLocation.ts, lines 70–72):
`subscription?.remove()` — the optional chaining makes it a no-op when the
local `subscription` variable is still `null`. -/
def effectCleanup (subscription : Option LocationSubscription) (active : List ℕ) :
    List ℕ :=
  match subscription with
  | none => active
  | some h => removeSubscription active h

/-- Shared helper: `List.filter` with the same predicate is idempotent. -/
theorem filter_idempotent (p : ℕ → Bool) (l : List ℕ) :
    (l.filter p).filter p = l.filter p := by
  induction l with
  | nil => rfl
  | cons a t ih =>
      cases hp : p a <;> simp [List.filter_cons, hp, ih]

/-- C9: stopping tracking is unconditionally safe. The cleanup with no
subscription is the identity on the platform's active set (a no-op, and being
a total function it raises nothing); running the cleanup a second time changes
nothing further; and after a cleanup the hook's subscription is not active. -/
theorem effectCleanup_safe (subscription : Option LocationSubscription)
    (active : List ℕ) :
    effectCleanup none active = active ∧
    effectCleanup subscription (effectCleanup subscription active)
      = effectCleanup subscription active ∧
    (∀ h, subscription = some h → h.id ∉ effectCleanup subscription active) := by
  refine ⟨rfl, ?_, ?_⟩
  · cases subscription with
    | none => rfl
    | some h => exact filter_idempotent _ active
  · intro h hsub
    subst hsub
    simp [effectCleanup, removeSubscription, List.mem_filter]

/-- Witness for C9: cleanup before any start is a no-op on a concrete active
set, double cleanup of handle `1` is stable, and handle `1` is inactive after
its cleanup. -/
theorem effectCleanup_safe_witness :
    effectCleanup none [1, 2] = [1, 2] ∧
    effectCleanup (some { id := 1 }) (effectCleanup (some { id := 1 }) [1, 2])
      = effectCleanup (some { id := 1 }) [1, 2] ∧
    (1 : ℕ) ∉ effectCleanup (some { id := 1 }) [1, 2] :=
  ⟨(effectCleanup_safe (some { id := 1 }) [1, 2]).1,
   (effectCleanup_safe (some { id := 1 }) [1, 2]).2.1,
   (effectCleanup_safe (some { id := 1 }) [1, 2]).2.2 { id := 1 } rfl⟩

end Reisefuehrer
